import Mathlib

/-!
Verification of the MacroBlank deepfake-detection client adapter.

The definitions below are a shallow embedding of the detection client
code: the mobile adapter `src/frontend/APP/macroblank/services/api.ts`
(functions `getMimeType`, `detectVideo`, `detectImage`, `detectAudio`,
`detectAIGenerated`) and the web component
`src/frontend/WEB/macroblank/components/Detector.tsx` (`handleAnalyze`).
JavaScript numbers are modelled as rationals; JavaScript truthiness of
optional strings, numbers and booleans is modelled explicitly.
-/

/-- JavaScript truthiness for an optional string used with the or
operator: an absent or empty string falls back to the default
(models `x || d` where `x : string | undefined`). -/
def jsOrStrOpt (x : Option String) (d : String) : String :=
  match x with
  | some s => if s = "" then d else s
  | none => d

/-- JavaScript truthiness for a plain string with the or operator
(models `s || d`): the empty string is falsy. -/
def jsOrStrVal (s d : String) : String :=
  if s = "" then d else s

/-- JavaScript truthiness for an optional number with `|| 0`
(models `x || 0`): absent and zero both give `0`. -/
def jsNumOrZero (x : Option Rat) : Rat :=
  match x with
  | some v => if v = 0 then 0 else v
  | none => 0

/-- JavaScript truthiness of an optional boolean: only `true` is truthy
(`undefined` and `false` are falsy). -/
def jsTruthy (x : Option Bool) : Bool :=
  x == some true

/-- JavaScript `String.prototype.includes` on character lists: does the
needle occur as a contiguous sublist of the haystack. -/
def strHasSub (needle : List Char) : List Char → Bool
  | [] => needle.isEmpty
  | c :: rest => needle.isPrefixOf (c :: rest) || strHasSub needle rest

/-- JavaScript `s.includes(pat)`. -/
def jsIncludes (s pat : String) : Bool :=
  strHasSub pat.data s.data

/-- JavaScript `s.toLowerCase()` (ASCII case folding). -/
def jsToLowerCase (s : String) : String :=
  ⟨s.data.map Char.toLower⟩

/-- JavaScript `s.split('.')` on character lists: splitting the empty
string yields `[""]`, and every separator starts a new segment. -/
def splitOnDot : List Char → List (List Char)
  | [] => [[]]
  | c :: rest =>
    if c = '.' then [] :: splitOnDot rest
    else
      match splitOnDot rest with
      | h :: t => (c :: h) :: t
      | [] => [[c]]

/-- The extension-to-MIME mapping table of `getMimeType`
(api.ts lines 26-38). -/
def mimeTypes : List (String × String) :=
  [("mp4", "video/mp4"),
   ("avi", "video/avi"),
   ("mov", "video/quicktime"),
   ("mkv", "video/x-matroska"),
   ("jpg", "image/jpeg"),
   ("jpeg", "image/jpeg"),
   ("png", "image/png"),
   ("wav", "audio/wav"),
   ("mp3", "audio/mpeg"),
   ("flac", "audio/flac"),
   ("ogg", "audio/ogg")]

/-- Embedding of `getMimeType` (api.ts lines 24-40):
`filename.split('.').pop()?.toLowerCase()` looked up in the table,
falling back to the per-call default. -/
def getMimeType (filename defaultType : String) : String :=
  let ext : String := ⟨(((splitOnDot filename.data).getLast?).getD []).map Char.toLower⟩
  (mimeTypes.lookup ext).getD defaultType

/-- The prediction labels of `DetectionResult` (api.ts lines 16-21). -/
inductive Prediction
  | REAL
  | FAKE
  | AIGENERATED
  | HUMAN
  | ERROR
deriving DecidableEq, Repr

/-- The normalized result returned by each adapter function
(api.ts `DetectionResult`). -/
structure DetectionResult where
  prediction : Prediction
  confidence : Rat
  model : String
deriving DecidableEq, Repr

/-- The `metadata` object of a video backend response. -/
structure VideoMetadata where
  raw_score : Option Rat
  frames_analyzed : Option Nat
  processing_time_ms : Option Rat
  model_variant : Option String
deriving DecidableEq, Repr

/-- A successful video backend response body
(fields read by `detectVideo`, api.ts lines 65-73). -/
structure VideoResponse where
  is_fake : Bool
  confidence : Rat
  metadata : Option VideoMetadata
deriving DecidableEq, Repr

/-- The raw score used by `detectVideo` (api.ts line 67):
`data.metadata?.raw_score ?? (data.confidence / 100)`. -/
def videoRawScore (v : VideoResponse) : Rat :=
  (v.metadata.bind VideoMetadata.raw_score).getD (v.confidence / 100)

/-- Embedding of the success path of `detectVideo` (api.ts lines 65-74):
conditional inversion of the raw score into a confidence percentage. -/
def detectVideoParse (v : VideoResponse) : DetectionResult :=
  { prediction := if v.is_fake then Prediction.FAKE else Prediction.REAL,
    confidence := if v.is_fake then videoRawScore v * 100 else (1 - videoRawScore v) * 100,
    model := jsOrStrOpt (v.metadata.bind VideoMetadata.model_variant) "GenConViT-ED" }

/-- The `results` object of an image backend response. -/
structure ImageResults where
  is_fake : Bool
  confidence_percentage : Rat
deriving DecidableEq, Repr

/-- A successful image backend response body
(fields read by `detectImage`, api.ts lines 102-111). -/
structure ImageResponse where
  results : ImageResults
  model : Option String
deriving DecidableEq, Repr

/-- Embedding of the success path of `detectImage`
(api.ts lines 102-111): the backend percentage is used directly. -/
def detectImageParse (d : ImageResponse) : DetectionResult :=
  { prediction := if d.results.is_fake then Prediction.FAKE else Prediction.REAL,
    confidence := d.results.confidence_percentage,
    model := jsOrStrOpt d.model "ConvNeXt-MTCNN" }

/-- The `results` object of an audio backend response
(fields read by `detectAudio`, api.ts lines 139-148). -/
structure AudioResults where
  verdict : Option String
  bonafide : Option Rat
  spoof : Option Rat
  is_fake : Option Bool
deriving DecidableEq, Repr

/-- The fake test of `detectAudio` (api.ts line 141):
`results.verdict?.toLowerCase().includes('spoof') || results.is_fake`. -/
def audioIsFake (r : AudioResults) : Bool :=
  (match r.verdict with
   | some v => jsIncludes (jsToLowerCase v) "spoof"
   | none => false) || jsTruthy r.is_fake

/-- Embedding of the success path of `detectAudio`
(api.ts lines 139-148): confidence is
`Math.max(results.bonafide || 0, results.spoof || 0) * 100`. -/
def detectAudioParse (r : AudioResults) : DetectionResult :=
  { prediction := if audioIsFake r then Prediction.FAKE else Prediction.REAL,
    confidence := max (jsNumOrZero r.bonafide) (jsNumOrZero r.spoof) * 100,
    model := "Wav2Vec2-AASIST" }

/-- A successful AI-generated-image backend response body
(fields read by `detectAIGenerated`, api.ts lines 177-179). -/
structure AIGenResponse where
  is_fake : Bool
  confidence : Rat
deriving DecidableEq, Repr

/-- Embedding of the success path of `detectAIGenerated`
(api.ts lines 177-185): `confidence = data.confidence * 100`
with no conditional inversion. -/
def detectAIGeneratedParse (d : AIGenResponse) : DetectionResult :=
  { prediction := if d.is_fake then Prediction.FAKE else Prediction.REAL,
    confidence := d.confidence * 100,
    model := "EfficientNet-B3" }

/-- An HTTP response to the video endpoint as `detectVideo` observes it:
either `response.ok` with a parsed success body, or a non-2xx status
whose error body may carry a `detail` string (absent when the body has
no detail or fails to parse, api.ts lines 60-63). -/
inductive VideoHttpResponse
  | success (data : VideoResponse)
  | failure (detail : Option String)
deriving DecidableEq, Repr

/-- Embedding of the full response handling of `detectVideo`
(api.ts lines 60-74): non-2xx throws
`new Error(error.detail || 'Video detection failed')`. -/
def detectVideoFetch : VideoHttpResponse → Except String DetectionResult
  | VideoHttpResponse.success d => Except.ok (detectVideoParse d)
  | VideoHttpResponse.failure det => Except.error (jsOrStrOpt det "Video detection failed")

/-- API base URL of the mobile adapter (api.ts line 2). -/
def API_BASE_URL : String := "http://192.168.0.116:8000"

/-- Video endpoint (api.ts line 6). -/
def apiEndpointVideo : String := API_BASE_URL ++ "/api/v1/detect/video"

/-- Image endpoint (api.ts line 7). -/
def apiEndpointImage : String := API_BASE_URL ++ "/api/v1/image/detect"

/-- Audio endpoint (api.ts line 8). -/
def apiEndpointAudio : String := API_BASE_URL ++ "/api/v1/audio/detect"

/-- Default of the `numFrames` parameter of `detectVideo`
(api.ts line 43: `numFrames = 15`). -/
def defaultNumFrames : Nat := 15

/-- The multipart `file` part attached to a detection request. -/
structure FilePart where
  name : String
  mime : String
deriving DecidableEq, Repr

/-- A detection request as issued by the mobile adapter: target URL and
the single multipart file part. -/
structure ApiRequest where
  url : String
  file : FilePart
deriving DecidableEq, Repr

/-- Embedding of the request construction of `detectVideo`
(api.ts lines 45-58): URL query `num_frames` and `model=ed`, file name
falling back to `video.mp4`, MIME inferred by `getMimeType`. -/
def buildVideoRequest (filename : String) (numFrames : Nat) : ApiRequest :=
  { url := apiEndpointVideo ++ "?num_frames=" ++ toString numFrames ++ "&model=ed",
    file := { name := jsOrStrVal filename "video.mp4",
              mime := getMimeType filename "video/mp4" } }

/-- Embedding of the request construction of `detectImage`
(api.ts lines 82-95): URL query `variant=vae`. -/
def buildImageRequest (filename : String) : ApiRequest :=
  { url := apiEndpointImage ++ "?variant=vae",
    file := { name := jsOrStrVal filename "image.jpg",
              mime := getMimeType filename "image/jpeg" } }

/-- Embedding of the request construction of `detectAudio`
(api.ts lines 119-132). -/
def buildAudioRequest (filename : String) : ApiRequest :=
  { url := apiEndpointAudio,
    file := { name := jsOrStrVal filename "audio.mp3",
              mime := getMimeType filename "audio/mpeg" } }

/-- The media kinds handled by the web `Detector` component
(Detector.tsx `DetectorProps.type`). -/
inductive MediaType
  | video
  | image
  | audio
  | text
deriving DecidableEq, Repr

/-- A selected file in the web component state. -/
structure FileRef where
  name : String
deriving DecidableEq, Repr

/-- The relevant React state of the `Detector` component
(Detector.tsx lines 221-228): displayed result (abstracted to the index
of the request that produced it), error message, in-flight flag. -/
structure DetectorState where
  result : Option Nat
  error : Option String
  isAnalyzing : Bool
deriving DecidableEq, Repr

/-- JavaScript `s.trim()`. -/
def strTrim (s : String) : String :=
  ⟨((s.data.dropWhile Char.isWhitespace).reverse.dropWhile Char.isWhitespace).reverse⟩

/-- Embedding of the entry of `handleAnalyze` (Detector.tsx lines
252-257): the two early-return guards, then `setIsAnalyzing(true)` and
`setError(null)` before the fetch. Returns the updated state and
whether a network request is issued. -/
def handleAnalyzeEntry (t : MediaType) (file : Option FileRef) (textInput : String)
    (s : DetectorState) : DetectorState × Bool :=
  if t ≠ MediaType.text ∧ file = none then (s, false)
  else if t = MediaType.text ∧ strTrim textInput = "" then (s, false)
  else ({ s with isAnalyzing := true, error := none }, true)

/-- Observable state-update events of `handleAnalyze` on one UI surface:
a call starts (`setIsAnalyzing(true); setError(null)`), a fetch
resolves and its result is stored unconditionally
(Detector.tsx line 391 `setResult(parsedResult)` then the `finally`
block), or a fetch rejects (`setError`). -/
inductive UIEvent
  | start
  | complete (requestIdx : Nat)
  | fail (msg : String)
deriving DecidableEq, Repr

/-- One state update of the `Detector` component. A completing request
stores its own result with no staleness check: the code keeps no
request identity and has no cancellation. -/
def uiStep (s : DetectorState) (e : UIEvent) : DetectorState :=
  match e with
  | UIEvent.start => { s with isAnalyzing := true, error := none }
  | UIEvent.complete r => { s with result := some r, isAnalyzing := false }
  | UIEvent.fail m => { s with error := some m, isAnalyzing := false }

/-- Runs a sequence of `handleAnalyze` events in the order the
JavaScript event loop delivers them. -/
def uiRun (s : DetectorState) (es : List UIEvent) : DetectorState :=
  es.foldl uiStep s

/-- Helper: `x || 0` on a present number is the number itself. -/
theorem jsNumOrZero_some (x : Rat) : jsNumOrZero (some x) = x := by
  by_cases h : x = 0 <;> simp [jsNumOrZero, h]

/-- Helper: the audio fake test holds exactly when the lowercased
verdict contains "spoof" or `is_fake` is the value `true`. -/
theorem audioIsFake_iff (r : AudioResults) :
    audioIsFake r = true ↔
      ((∃ v, r.verdict = some v ∧ jsIncludes (jsToLowerCase v) "spoof" = true) ∨
        r.is_fake = some true) := by
  unfold audioIsFake jsTruthy
  cases hv : r.verdict with
  | none => simp [beq_iff_eq]
  | some v => simp [beq_iff_eq]

/-- C1 counterexample: the AI-generated adapter does not apply the
confidence-inversion rule. For the response with `is_fake = false` and
raw score `0.2` the claim demands `confidencePercent = (1-0.2)*100 = 80`,
but `detectAIGenerated` returns `0.2*100 = 20`. -/
theorem C1_counterexample :
    (detectAIGeneratedParse ⟨false, 1/5⟩).confidence = 20 ∧
    (1 - (1/5 : Rat)) * 100 = 80 ∧ (20 : Rat) ≠ 80 := by
  norm_num [detectAIGeneratedParse]

/-- C1 (amended): the video adapter applies the confidence-inversion
rule exactly once to the backend raw score, while the AI-generated
adapter applies no inversion at all: its `confidencePercent` is always
`rawScore*100` regardless of the fake flag. -/
theorem C1_amended :
    (∀ (v : VideoResponse) (m : VideoMetadata) (s : Rat),
        v.metadata = some m → m.raw_score = some s →
        (detectVideoParse v).confidence =
          if v.is_fake then s * 100 else (1 - s) * 100) ∧
    (∀ (a : AIGenResponse), (detectAIGeneratedParse a).confidence = a.confidence * 100) := by
  constructor
  · intro v m s hm hs
    simp [detectVideoParse, videoRawScore, hm, hs]
  · intro a
    rfl

/-- C1 witness: concrete fake video response with raw score `0.3`
yields `confidencePercent = 30`. -/
theorem C1_witness :
    (detectVideoParse ⟨true, 0, some ⟨some (3/10), none, none, none⟩⟩).confidence = 30 := by
  have h := C1_amended.1 ⟨true, 0, some ⟨some (3/10), none, none, none⟩⟩
      ⟨some (3/10), none, none, none⟩ (3/10) rfl rfl
  norm_num at h
  exact h

/-- C2 counterexample: the adapter performs no clamping. A video
response carrying the malformed raw score `1.5` with `is_fake = true`
produces `confidencePercent = 150`, outside `[0,100]`. -/
theorem C2_counterexample :
    ¬ ((detectVideoParse ⟨true, 0, some ⟨some (3/2), none, none, none⟩⟩).confidence ≤ 100) := by
  norm_num [detectVideoParse, videoRawScore]

/-- C2 (amended): `confidencePercent` lies in `[0,100]` provided the
effective backend scores lie in `[0,1]`; no clamping is applied, so
malformed out-of-range upstream scores escape the interval. -/
theorem C2_amended :
    (∀ (v : VideoResponse), 0 ≤ videoRawScore v → videoRawScore v ≤ 1 →
        0 ≤ (detectVideoParse v).confidence ∧ (detectVideoParse v).confidence ≤ 100) ∧
    (∀ (r : AudioResults),
        0 ≤ jsNumOrZero r.bonafide → jsNumOrZero r.bonafide ≤ 1 →
        0 ≤ jsNumOrZero r.spoof → jsNumOrZero r.spoof ≤ 1 →
        0 ≤ (detectAudioParse r).confidence ∧ (detectAudioParse r).confidence ≤ 100) := by
  constructor
  · intro v h0 h1
    cases hf : v.is_fake <;> simp [detectVideoParse, hf] <;> constructor <;> nlinarith
  · intro r hb0 hb1 hs0 hs1
    simp only [detectAudioParse]
    have hmle : max (jsNumOrZero r.bonafide) (jsNumOrZero r.spoof) ≤ 1 := max_le hb1 hs1
    have hmge : 0 ≤ max (jsNumOrZero r.bonafide) (jsNumOrZero r.spoof) :=
      le_trans hb0 (le_max_left _ _)
    constructor <;> nlinarith

/-- C2 witness: a well-formed authentic video response with raw score
`0.25` stays inside `[0,100]`. -/
theorem C2_witness :
    0 ≤ (detectVideoParse ⟨false, 0, some ⟨some (1/4), none, none, none⟩⟩).confidence ∧
    (detectVideoParse ⟨false, 0, some ⟨some (1/4), none, none, none⟩⟩).confidence ≤ 100 :=
  C2_amended.1 ⟨false, 0, some ⟨some (1/4), none, none, none⟩⟩
    (by norm_num [videoRawScore]) (by norm_num [videoRawScore])

/-- C3: for an audio response carrying both probabilities, the reported
confidence is `max(bonafide, spoof) * 100`, whatever the verdict and
fake flag (hence whatever prediction label is chosen). -/
theorem C3_audio_max (r : AudioResults) (b s : Rat)
    (hb : r.bonafide = some b) (hs : r.spoof = some s) :
    (detectAudioParse r).confidence = max b s * 100 := by
  simp [detectAudioParse, hb, hs, jsNumOrZero_some]

/-- C3 witness: bonafide `0.7` and spoof `0.3` give confidence
`max(0.7,0.3)*100`. -/
theorem C3_witness :
    (detectAudioParse ⟨none, some (7/10), some (3/10), none⟩).confidence =
      max (7/10 : Rat) (3/10) * 100 :=
  C3_audio_max ⟨none, some (7/10), some (3/10), none⟩ (7/10) (3/10) rfl rfl

/-- C4: for the response `{is_fake: false, confidence: 33.9}` without
`metadata.raw_score`, the adapter falls back to
`rawScore = 33.9/100 = 0.339` and reports
`confidencePercent = (1-0.339)*100 = 66.1` with prediction REAL. -/
theorem C4_fallback :
    videoRawScore ⟨false, 339/10, none⟩ = 339/1000 ∧
    (detectVideoParse ⟨false, 339/10, none⟩).confidence = 661/10 ∧
    (detectVideoParse ⟨false, 339/10, none⟩).prediction = Prediction.REAL := by
  refine ⟨by norm_num [videoRawScore], by norm_num [detectVideoParse, videoRawScore], ?_⟩
  simp [detectVideoParse]

/-- C5 counterexample: a non-2xx response whose body carries the detail
string `""` does not surface that detail: the thrown message is the
generic per-type message, because the JavaScript or-operator treats the
empty string as falsy. -/
theorem C5_counterexample :
    detectVideoFetch (VideoHttpResponse.failure (some "")) =
      Except.error "Video detection failed" ∧
    "Video detection failed" ≠ "" :=
  ⟨rfl, by decide⟩

/-- C5 (amended): on a non-2xx response the video detect operation fails
with the server-provided detail string exactly when that detail is
present and nonempty; an absent or empty detail yields the generic
message "Video detection failed"; no success value is ever returned. -/
theorem C5_amended (d : Option String) :
    (∀ s, d = some s → s ≠ "" →
        detectVideoFetch (VideoHttpResponse.failure d) = Except.error s) ∧
    ((d = none ∨ d = some "") →
        detectVideoFetch (VideoHttpResponse.failure d) =
          Except.error "Video detection failed") ∧
    (∀ r, detectVideoFetch (VideoHttpResponse.failure d) ≠ Except.ok r) := by
  refine ⟨?_, ?_, ?_⟩
  · intro s hd hs
    subst hd
    simp [detectVideoFetch, jsOrStrOpt, hs]
  · rintro (rfl | rfl) <;> simp [detectVideoFetch, jsOrStrOpt]
  · intro r
    cases d <;> simp [detectVideoFetch]

/-- C5 witness: the detail "file too large" surfaces verbatim. -/
theorem C5_witness :
    detectVideoFetch (VideoHttpResponse.failure (some "file too large")) =
      Except.error "file too large" :=
  (C5_amended (some "file too large")).1 "file too large" rfl (by decide)

/-- C6: interleaving witness for the stale-overwrite race. Two analyze
calls start; the second request completes first and the first (stale)
request completes last. Because every completion stores its result
unconditionally, the displayed result is the first request, not the
second — the code has no cancellation or staleness guard. -/
theorem C6_stale_overwrite :
    (uiRun ⟨none, none, false⟩
      [UIEvent.start, UIEvent.start, UIEvent.complete 2, UIEvent.complete 1]).result =
      some 1 := by
  decide

/-- C7 counterexample: invoking the analyze handler with no file
selected returns early: no network request is issued, but also no error
of any kind is raised — the state is left untouched, so no
ValidationError is surfaced. -/
theorem C7_counterexample :
    handleAnalyzeEntry MediaType.video none "" ⟨none, none, false⟩ =
      (⟨none, none, false⟩, false) := by
  decide

/-- C7 (amended): with a missing file the handler returns early with no
network call and the component state unchanged (no error raised); file
support is not validated, so any selected file is uploaded — the
network request is issued regardless of the file. -/
theorem C7_amended :
    (∀ (t : MediaType) (ti : String) (s : DetectorState), t ≠ MediaType.text →
        handleAnalyzeEntry t none ti s = (s, false)) ∧
    (∀ (t : MediaType) (f : FileRef) (ti : String) (s : DetectorState), t ≠ MediaType.text →
        (handleAnalyzeEntry t (some f) ti s).2 = true) := by
  constructor
  · intro t ti s ht
    simp [handleAnalyzeEntry, ht]
  · intro t f ti s ht
    simp [handleAnalyzeEntry, ht]

/-- C7 witness: a missing image file gives an early return with the
state untouched and no request. -/
theorem C7_witness :
    handleAnalyzeEntry MediaType.image none "" ⟨none, none, false⟩ =
      (⟨none, none, false⟩, false) :=
  C7_amended.1 MediaType.image "" ⟨none, none, false⟩ (by decide)

/-- C8: with the caller supplying no options, the video request is
issued with `num_frames=15` (the default of the `numFrames` parameter)
and model variant `ed`, and the image request with variant `vae`. -/
theorem C8_defaults :
    (∀ fn : String, (buildVideoRequest fn defaultNumFrames).url =
      "http://192.168.0.116:8000/api/v1/detect/video?num_frames=15&model=ed") ∧
    (∀ fn : String, (buildImageRequest fn).url =
      "http://192.168.0.116:8000/api/v1/image/detect?variant=vae") := by
  constructor <;> intro fn <;> rfl

/-- C9: the MIME type attached to the multipart file part of each
adapter request is `getMimeType` of the filename with the per-type
default, and `getMimeType` realizes the extension mapping table
(mp4, avi, mov, mkv, jpg, jpeg, png, wav, mp3, flac, ogg) with
case-insensitive extensions and the default on unknown extensions. -/
theorem C9_mime :
    (∀ (fn : String) (nf : Nat),
        (buildVideoRequest fn nf).file.mime = getMimeType fn "video/mp4") ∧
    (∀ fn : String, (buildImageRequest fn).file.mime = getMimeType fn "image/jpeg") ∧
    (∀ fn : String, (buildAudioRequest fn).file.mime = getMimeType fn "audio/mpeg") ∧
    getMimeType "clip.mp4" "video/mp4" = "video/mp4" ∧
    getMimeType "clip.avi" "video/mp4" = "video/avi" ∧
    getMimeType "movie.MOV" "video/mp4" = "video/quicktime" ∧
    getMimeType "movie.mkv" "video/mp4" = "video/x-matroska" ∧
    getMimeType "photo.jpg" "image/jpeg" = "image/jpeg" ∧
    getMimeType "photo.jpeg" "image/jpeg" = "image/jpeg" ∧
    getMimeType "photo.png" "image/jpeg" = "image/png" ∧
    getMimeType "voice.wav" "audio/mpeg" = "audio/wav" ∧
    getMimeType "song.mp3" "audio/mpeg" = "audio/mpeg" ∧
    getMimeType "song.flac" "audio/mpeg" = "audio/flac" ∧
    getMimeType "song.ogg" "audio/mpeg" = "audio/ogg" ∧
    getMimeType "clip.xyz" "video/mp4" = "video/mp4" ∧
    getMimeType "archive.xyz" "image/jpeg" = "image/jpeg" := by
  refine ⟨fun fn nf => rfl, fun fn => rfl, fun fn => rfl, ?_⟩
  decide

/-- C10: an audio response with both probabilities absent still yields a
full result: confidence defaults to `0`, and the prediction is FAKE
exactly when the lowercased verdict contains "spoof" or `is_fake` is
the value `true` — and is REAL in every other case. -/
theorem C10_missing_scores (r : AudioResults)
    (hb : r.bonafide = none) (hs : r.spoof = none) :
    (detectAudioParse r).confidence = 0 ∧
    ((detectAudioParse r).prediction = Prediction.FAKE ↔
      ((∃ v, r.verdict = some v ∧ jsIncludes (jsToLowerCase v) "spoof" = true) ∨
        r.is_fake = some true)) ∧
    ((detectAudioParse r).prediction = Prediction.FAKE ∨
      (detectAudioParse r).prediction = Prediction.REAL) := by
  refine ⟨?_, ?_, ?_⟩
  · simp [detectAudioParse, hb, hs, jsNumOrZero]
  · have hpred : (detectAudioParse r).prediction = Prediction.FAKE ↔ audioIsFake r = true := by
      simp only [detectAudioParse]
      by_cases h : audioIsFake r <;> simp [h]
    exact hpred.trans (audioIsFake_iff r)
  · by_cases h : audioIsFake r <;> simp [detectAudioParse, h]

/-- C10 witness: an audio response with only an uppercase spoof verdict
gives confidence 0 and prediction FAKE. -/
theorem C10_witness :
    (detectAudioParse ⟨some "SPOOF detected", none, none, none⟩).confidence = 0 ∧
    (detectAudioParse ⟨some "SPOOF detected", none, none, none⟩).prediction = Prediction.FAKE := by
  have h := C10_missing_scores ⟨some "SPOOF detected", none, none, none⟩ rfl rfl
  exact ⟨h.1, h.2.1.mpr (Or.inl ⟨"SPOOF detected", rfl, by decide⟩)⟩
